import Mathlib

/-!
# Verification of the "strike" CRM client's lead-list logic

Shallow embedding of the pure lead-list logic of the CRM frontend:

* the `Lead` record and the fixed stage table (`src/frontend/src/services/api.ts`,
  `src/unnamed/part_002`);
* the derived views: group-by-stage, per-column value aggregation, text filtering
  and sorting (`src/unnamed/part_002`, `src/frontend/src/components/PremiumKanbanBoard.tsx`,
  `src/frontend/src/screens/DashboardScreen.tsx`, `src/unnamed/part_015`);
* the `useLeads` hook's list mutations as a state machine over the hook's
  `(leads, error)` state, with the HTTP outcome supplied as an explicit input
  (`src/frontend/src/hooks/useLeads.ts`);
* the Kanban deal-outcome modal handlers (`src/unnamed/part_002`);
* the auth context's `login`/`fetchUser` flow (`src/frontend/src/contexts/AuthContext.tsx`).

JavaScript strings are embedded as Lean `String`; `toLowerCase` as a
character-wise `Char.toLower`; `String.prototype.includes` as substring
containment over the character list; `localeCompare` as the code-point
lexicographic comparison; the JS `number` used for `order_value` as `Int`;
`undefined`-able fields as `Option`; timestamps as the ISO strings the code
stores, with `new Date().toISOString()` passed in as an explicit `now` argument.
`Array.prototype.sort` (stable in modern JS engines) is embedded as the stable
`List.insertionSort` on the comparator's "does not compare greater" relation.
-/

namespace CRM

/-- The `Lead` record (`src/frontend/src/services/api.ts`). -/
structure Lead where
  id : String
  name : String
  company : Option String := none
  phone : Option String := none
  email : Option String := none
  address : Option String := none
  stage : String
  priority : String
  notes : Option String := none
  order_value : Option Int := none
  currency : Option String := none
  deal_status : Option String := none
  user_id : String := ""
  created_at : String := ""
  last_interaction : Option String := none
deriving Repr, DecidableEq

/-- One entry of the hardcoded `STAGES` array (`src/unnamed/part_002`). -/
structure StageInfo where
  id : String
  name : String
  color : String
  bgColor : String
  icon : String
  description : String
deriving Repr, DecidableEq

/-- The fixed stage table of the Kanban boards (`src/unnamed/part_002`). -/
def STAGES : List StageInfo :=
  [ ⟨"New Leads", "New Leads", "#3B82F6", "#F0F9FF", "person-add-outline",
      "Fresh prospects to contact"⟩,
    ⟨"Contacted", "Contacted", "#F59E0B", "#FFFBEB", "call-outline",
      "Initial contact made"⟩,
    ⟨"Follow-up", "Follow-up", "#EF4444", "#FEF2F2", "time-outline",
      "Awaiting response"⟩,
    ⟨"Negotiation", "Negotiation", "#8B5CF6", "#FAF5FF", "chatbubbles-outline",
      "Discussing terms"⟩,
    ⟨"Closed", "Closed", "#10B981", "#ECFDF5", "checkmark-circle-outline",
      "Deal completed"⟩ ]

/-- The five stage identifiers, the keys of the five Kanban buckets. -/
def stageIds : List String := STAGES.map (fun s => s.id)

/-- Embeds `leads.filter(lead => lead.stage === stage)` — shared by the Kanban board
variants (`src/unnamed/part_002` line 73, `PremiumKanbanBoard.tsx` line 92). -/
def getLeadsByStage (leads : List Lead) (stage : String) : List Lead :=
  leads.filter fun lead => lead.stage == stage

namespace SimpleKanbanBoard

/-- Embeds `stageLeads.reduce((total, lead) => total + (lead.order_value || 0), 0)`
(`src/unnamed/part_002` lines 77–79).  `lead.order_value || 0` maps both the
absent and the zero value to `0`, which `Option.getD 0` reproduces. -/
def getTotalValue (stageLeads : List Lead) : Int :=
  stageLeads.foldl (fun total lead => total + lead.order_value.getD 0) 0

end SimpleKanbanBoard

namespace PremiumKanbanBoard

/-- Embeds `stageLeads.length * 5000` — the source comments this as
"Mock calculation for demo - in real app would use deal values"
(`PremiumKanbanBoard.tsx` lines 96–99; `DraggableKanbanBoard.tsx` is identical). -/
def getTotalValue (stageLeads : List Lead) : Int :=
  stageLeads.length * 5000

end PremiumKanbanBoard

/-! ## Text search helpers

`s.toLowerCase()` is embedded as `lowerChars s`, and JS
`haystack.includes(needle)` as `includes haystack needle` over character
lists. -/

/-- Character list of `s.toLowerCase()`. -/
def lowerChars (s : String) : List Char :=
  s.toList.map Char.toLower

/-- Embeds `haystack.includes(needle)`: `needle` occurs contiguously in `haystack`. -/
def includes (haystack needle : List Char) : Bool :=
  match haystack with
  | [] => needle.isEmpty
  | _ :: t => needle.isPrefixOf haystack || includes t needle

namespace ContactListView

/-- The search predicate of `filteredAndSortedLeads`
(`DashboardScreen.tsx` lines 720–730): case-insensitive substring match on
name, company, email and stage, and a case-sensitive one on phone. -/
def matchesSearch (lead : Lead) (searchQuery : String) : Bool :=
  let searchLower := lowerChars searchQuery
  includes (lowerChars lead.name) searchLower
  || (match lead.company with
      | some c => includes (lowerChars c) searchLower
      | none => false)
  || (match lead.phone with
      | some p => includes p.toList searchQuery.toList
      | none => false)
  || (match lead.email with
      | some e => includes (lowerChars e) searchLower
      | none => false)
  || includes (lowerChars lead.stage) searchLower

/-- The filtering stage of `filteredAndSortedLeads`. -/
def filterLeads (leads : List Lead) (searchQuery : String) : List Lead :=
  leads.filter fun lead => matchesSearch lead searchQuery

/-- The four values of the `sortBy` component state. -/
inductive SortKey where
  | name
  | company
  | stage
  | priority
deriving Repr, DecidableEq

/-- Embeds the table `priorityOrder = (high: 3, medium: 2, low: 1)` read as
`priorityOrder[p] || 0` (`DashboardScreen.tsx` lines 740–742). -/
def priorityOrder (p : String) : Int :=
  if p == "high" then 3
  else if p == "medium" then 2
  else if p == "low" then 1
  else 0

/-- Embeds `a.localeCompare(b)` as the code-point lexicographic three-way
comparison, phrased on the character lists (the same order as `String.lt`). -/
def localeCompare (a b : String) : Int :=
  if a.toList < b.toList then -1 else if b.toList < a.toList then 1 else 0

/-- The comparator of `filteredAndSortedLeads` (`DashboardScreen.tsx`
lines 731–746). -/
def leadCompare (sortBy : SortKey) (a b : Lead) : Int :=
  match sortBy with
  | .name => localeCompare a.name b.name
  | .company => localeCompare (a.company.getD "") (b.company.getD "")
  | .stage => localeCompare a.stage b.stage
  | .priority => priorityOrder b.priority - priorityOrder a.priority

/-- Embeds `array.sort(cmp)` for a stable JS engine: the stable insertion sort on
the relation "`cmp a b` is not positive". -/
def jsSort (cmp : Lead → Lead → Int) (l : List Lead) : List Lead :=
  l.insertionSort fun a b => cmp a b ≤ 0

/-- The sorting stage of `filteredAndSortedLeads`. -/
def sortLeads (sortBy : SortKey) (l : List Lead) : List Lead :=
  jsSort (leadCompare sortBy) l

/-- Embeds `filteredAndSortedLeads = leads.filter(...).sort(...)`
(`DashboardScreen.tsx` lines 720–746). -/
def filteredAndSortedLeads (leads : List Lead) (searchQuery : String)
    (sortBy : SortKey) : List Lead :=
  sortLeads sortBy (filterLeads leads searchQuery)

end ContactListView

namespace LeadsScreen

/-- Embeds `filteredLeads` of the leads screen (`src/unnamed/part_015` lines 39–47):
search on name, company (case-insensitive) and phone (case-sensitive), plus a
priority filter where `'all'` matches everything. -/
def filteredLeads (leads : List Lead) (searchQuery selectedPriority : String) :
    List Lead :=
  leads.filter fun lead =>
    let matchesSearch :=
      includes (lowerChars lead.name) (lowerChars searchQuery)
      || (match lead.company with
          | some c => includes (lowerChars c) (lowerChars searchQuery)
          | none => false)
      || (match lead.phone with
          | some p => includes p.toList searchQuery.toList
          | none => false)
    let matchesPriority := selectedPriority == "all" || lead.priority == selectedPriority
    matchesSearch && matchesPriority

end LeadsScreen

/-! ## The `useLeads` hook as a state machine

`src/frontend/src/hooks/useLeads.ts`.  The hook's relevant React state is the
pair `(leads, error)`; the `loading` flag only drives a spinner and is omitted.
The outcome of the awaited `fetch` is an explicit `ApiResponse` input: `success`
carries the parsed 2xx body, `httpError` a non-2xx status together with the
error body (`none` when the body fails to parse as JSON, `some detail` with the
optional `detail` field otherwise), `networkError` the thrown error's
`message`. -/

/-- The hook's React state: the in-memory lead list and the error string. -/
structure LeadsState where
  leads : List Lead
  error : Option String
deriving Repr, DecidableEq

/-- Outcome of one awaited `fetch` call, as seen by the hook's code. -/
inductive ApiResponse (α : Type) where
  | success (body : α)
  | httpError (status : Nat) (detail : Option (Option String))
  | networkError (message : String)
deriving Repr, DecidableEq

namespace UseLeads

/-- Embeds `fetchLeads` (`useLeads.ts` lines 39–67): replace the list on success,
set the error string otherwise; no token means an immediate `return`. -/
def fetchLeads (token : Option String) (s : LeadsState)
    (resp : ApiResponse (List Lead)) : LeadsState :=
  match token with
  | none => s
  | some _ =>
    match resp with
    | .success data => { leads := data, error := none }
    | .httpError status _ =>
        { s with error := some ("Failed to fetch leads: " ++ toString status) }
    | .networkError message => { s with error := some message }

/-- Embeds `createLead` (`useLeads.ts` lines 69–117).  With no token it sets the
error string `'Authentication required'` and returns `null`; on success it
appends the server-returned record; on a non-2xx response it surfaces the
body's `detail` (or a fallback; the `||` also replaces an empty `detail`);
a thrown error's empty message falls back to the generic string. -/
def createLead (token : Option String) (s : LeadsState)
    (resp : ApiResponse Lead) : LeadsState × Option Lead :=
  match token with
  | none => ({ s with error := some "Authentication required" }, none)
  | some _ =>
    match resp with
    | .success newLead =>
        ({ leads := s.leads ++ [newLead], error := none }, some newLead)
    | .httpError status detail =>
        let errorMessage :=
          match detail with
          | some (some d) => if d == "" then "Failed to create lead" else d
          | some none => "Failed to create lead"
          | none => "Failed to create lead: " ++ toString status
        ({ s with error := some errorMessage }, none)
    | .networkError message =>
        let errorMessage :=
          if message == "" then "Something went wrong creating the lead" else message
        ({ s with error := some errorMessage }, none)

/-- The local patch applied by `updateLeadStage` on success
(`useLeads.ts` lines 135–141): map over the list, rewriting only the record
with the matching id to carry the new stage and a fresh `last_interaction`. -/
def patchStage (leads : List Lead) (leadId stage now : String) : List Lead :=
  leads.map fun lead =>
    if lead.id == leadId then { lead with stage := stage, last_interaction := some now }
    else lead

/-- Embeds `updateLeadStage` (`useLeads.ts` lines 119–153).  `now` stands for
`new Date().toISOString()`. -/
def updateLeadStage (token : Option String) (s : LeadsState)
    (leadId stage now : String) (resp : ApiResponse Unit) : LeadsState × Bool :=
  match token with
  | none => (s, false)
  | some _ =>
    match resp with
    | .success _ =>
        ({ leads := patchStage s.leads leadId stage now, error := none }, true)
    | .httpError _ _ =>
        ({ s with error := some "Failed to update lead stage" }, false)
    | .networkError message => ({ s with error := some message }, false)

/-- Embeds `updateLead` (`useLeads.ts` lines 155–188): on success replace the record
with the matching id by the server-returned one. -/
def updateLead (token : Option String) (s : LeadsState) (leadId : String)
    (resp : ApiResponse Lead) : LeadsState × Bool :=
  match token with
  | none => (s, false)
  | some _ =>
    match resp with
    | .success updatedLead =>
        ({ leads := s.leads.map fun lead =>
              if lead.id == leadId then updatedLead else lead,
           error := none }, true)
    | .httpError _ _ => ({ s with error := some "Failed to update lead" }, false)
    | .networkError message => ({ s with error := some message }, false)

/-- Embeds `deleteLead` (`useLeads.ts` lines 190–215): on success filter the record
out of the local list. -/
def deleteLead (token : Option String) (s : LeadsState) (leadId : String)
    (resp : ApiResponse Unit) : LeadsState × Bool :=
  match token with
  | none => (s, false)
  | some _ =>
    match resp with
    | .success _ =>
        ({ leads := s.leads.filter fun lead => lead.id != leadId,
           error := none }, true)
    | .httpError _ _ => ({ s with error := some "Failed to delete lead" }, false)
    | .networkError message => ({ s with error := some message }, false)

end UseLeads

/-! ## The Kanban deal-outcome modal (`src/unnamed/part_002`) -/

/-- The `dealOutcomeModal` component state. -/
structure DealOutcomeModalState where
  visible : Bool
  lead : Option Lead
deriving Repr, DecidableEq

/-- The observable actions the board handlers can emit.  `apiRequest` is the
shape an HTTP call would take; the handlers below never emit one. -/
inductive BoardEffect where
  | showToast (toastType text1 text2 : String)
  | apiRequest (method url : String)
deriving Repr, DecidableEq

/-- Whether an emitted effect is an HTTP request. -/
def BoardEffect.isApiRequest : BoardEffect → Bool
  | .showToast _ _ _ => false
  | .apiRequest _ _ => true

/-- The board component's relevant state: the lead list it renders and the
deal-outcome modal. -/
structure BoardState where
  leads : List Lead
  dealOutcomeModal : DealOutcomeModalState
deriving Repr, DecidableEq

namespace SimpleKanbanBoard

/-- Embeds `handleLeadMovedToClosed` (`src/unnamed/part_002` lines 82–92): when the
new stage is `'Closed'` and the lead is found, open the modal on a copy of the
lead with the stage already rewritten. -/
def handleLeadMovedToClosed (s : BoardState) (leadId newStage : String) :
    BoardState :=
  if newStage == "Closed" then
    match s.leads.find? (fun l => l.id == leadId) with
    | some lead =>
        { s with dealOutcomeModal :=
            { visible := true, lead := some { lead with stage := newStage } } }
    | none => s
  else s

/-- Embeds `handleDealOutcomeConfirm` (`src/unnamed/part_002` lines 94–110): guard on
the modal's lead, show a success toast, close the modal.  The source carries a
`TODO: Update lead with deal_status and notes using backend API`; no request is
issued and `notes` is unused. -/
def handleDealOutcomeConfirm (s : BoardState) (dealStatus : String)
    (_notes : Option String) : BoardState × List BoardEffect :=
  match s.dealOutcomeModal.lead with
  | none => (s, [])
  | some lead =>
      ({ s with dealOutcomeModal := { visible := false, lead := none } },
       [BoardEffect.showToast "success"
          ("✅ Deal Closed - " ++ if dealStatus == "won" then "Won! 🎉" else "Lost 😔")
          (lead.name ++ " marked as " ++ dealStatus)])

end SimpleKanbanBoard

/-! ## The auth context (`src/frontend/src/contexts/AuthContext.tsx`) -/

/-- The `User` profile record. -/
structure User where
  id : String
  email : String
  name : String
  company : Option String := none
deriving Repr, DecidableEq

/-- The provider's `(user, token)` state (`isLoading` only drives a spinner
and is omitted). -/
structure AuthState where
  user : Option User
  token : Option String
deriving Repr, DecidableEq

/-- Outcome of the `GET /api/auth/me` call inside `fetchUser`: a parsed 2xx
profile, or anything else — a non-2xx response and a network/parse error both
reach `fetchUser`'s catch block via its `throw`. -/
inductive MeResponse where
  | ok (userData : User)
  | failure
deriving Repr, DecidableEq

/-- Outcome of the `POST /api/auth/login` call: a parsed 2xx body carrying
`access_token`, a non-2xx body with its optional `detail`, or a thrown
fetch/parse error. -/
inductive LoginResponse where
  | ok (access_token : String)
  | badRequest (detail : Option String)
  | networkError
deriving Repr, DecidableEq

/-- Embeds `logout` (`AuthContext.tsx` lines 142–145). -/
def logout (_s : AuthState) : AuthState :=
  { user := none, token := none }

/-- Embeds `fetchUser` (`AuthContext.tsx` lines 35–56): on success store the profile
and return `true`; on any failure call `logout()` and return `false`. -/
def fetchUser (s : AuthState) (_authToken : String) (resp : MeResponse) :
    AuthState × Bool :=
  match resp with
  | .ok userData => ({ s with user := some userData }, true)
  | .failure => (logout s, false)

/-- Embeds `login` (`AuthContext.tsx` lines 58–95): on a 2xx login response store the
token, then run `fetchUser`; `login` returns `true` exactly when `fetchUser`
did, and falls through to `return false` otherwise.  A non-2xx response or a
thrown error leaves the state untouched and returns `false`. -/
def login (s : AuthState) (resp : LoginResponse) (meResp : MeResponse) :
    AuthState × Bool :=
  match resp with
  | .ok access_token => fetchUser { s with token := some access_token } access_token meResp
  | .badRequest _ => (s, false)
  | .networkError => (s, false)

/-- Embeds `isAuthenticated: !!user && !!token` (`AuthContext.tsx` line 156). -/
def isAuthenticated (s : AuthState) : Bool :=
  s.user.isSome && s.token.isSome

/-! ## Statement vocabulary

Predicates used to state the specification's properties. -/

/-- States that `field` contains `searchQuery` case-insensitively. -/
def containsCI (field searchQuery : String) : Bool :=
  includes (lowerChars field) (lowerChars searchQuery)

/-- Lifts `containsCI` to an optional field; an absent field contains nothing. -/
def optContainsCI (field : Option String) (searchQuery : String) : Bool :=
  match field with
  | some s => containsCI s searchQuery
  | none => false

/-! ## Example records used in concrete witnesses -/

/-- Example lead in the first pipeline stage (spec §8, scenario 1). -/
def amy : Lead :=
  { id := "1", name := "Amy", stage := "New Leads", priority := "high" }

/-- Example lead in the terminal stage (spec §8, scenario 1). -/
def zoe : Lead :=
  { id := "2", name := "Zoe", stage := "Closed", priority := "low" }

/-- Example lead whose stage matches no Kanban bucket. -/
def bob : Lead :=
  { id := "3", name := "Bob", stage := "Qualified", priority := "medium" }

/-- Example lead carrying a concrete `order_value`. -/
def leadWithValue : Lead :=
  { id := "4", name := "Val", stage := "Negotiation", priority := "high",
    order_value := some 500 }

/-! ## Helper lemmas -/

/-- Correctness of `includes`: it decides contiguous-substring containment. -/
theorem includes_iff (haystack needle : List Char) :
    includes haystack needle = true ↔ needle <:+: haystack := by
  induction haystack with
  | nil => simp [includes, List.isEmpty_iff, List.infix_nil]
  | cons c t ih =>
      simp [includes, ih, List.infix_cons_iff, Bool.or_eq_true,
        List.isPrefixOf_iff_prefix]

/-- Every string contains the empty needle. -/
theorem includes_nil (haystack : List Char) : includes haystack [] = true := by
  simp [includes_iff]

/-- An exact containment survives lowercasing both sides, so the
case-sensitive phone match implies the case-insensitive one. -/
theorem includes_map_toLower (s q : List Char) (h : includes s q = true) :
    includes (s.map Char.toLower) (q.map Char.toLower) = true := by
  rw [includes_iff] at h ⊢
  exact h.map Char.toLower

/-- Lowercasing the empty string gives no characters. -/
theorem lowerChars_empty : lowerChars "" = [] := rfl

/-- Folding `+ order_value.getD 0` from any accumulator is the accumulator
plus the sum of the mapped values. -/
theorem foldl_add_getD (L : List Lead) (init : Int) :
    L.foldl (fun total lead => total + lead.order_value.getD 0) init =
      init + (L.map fun lead => lead.order_value.getD 0).sum := by
  induction L generalizing init with
  | nil => simp
  | cons a t ih => simp [ih, add_assoc]

/-- Membership in a stage bucket means membership in the list with exactly
that stage value. -/
theorem mem_getLeadsByStage (L : List Lead) (x : Lead) (st : String) :
    x ∈ getLeadsByStage L st ↔ x ∈ L ∧ x.stage = st := by
  simp [getLeadsByStage]

/-! ## Claim theorems -/

/-- C2: grouping by stage is a partition: the five buckets keyed by the fixed
stage identifiers are pairwise disjoint, their union by membership is exactly
the sublist of `L` whose stage is one of the five known values, and a lead
with an unknown stage value appears in no bucket. -/
theorem grouping_partition (L : List Lead) (x : Lead) :
    (∀ s1 ∈ stageIds, ∀ s2 ∈ stageIds, s1 ≠ s2 →
      x ∈ getLeadsByStage L s1 → ¬ x ∈ getLeadsByStage L s2) ∧
    ((∃ s ∈ stageIds, x ∈ getLeadsByStage L s) ↔ x ∈ L ∧ x.stage ∈ stageIds) ∧
    (¬ x.stage ∈ stageIds → ∀ s ∈ stageIds, ¬ x ∈ getLeadsByStage L s) := by
  refine ⟨?_, ⟨?_, ?_⟩, ?_⟩
  · intro s1 _ s2 _ hne h1 h2
    exact hne
      (((mem_getLeadsByStage L x s1).1 h1).2.symm.trans
        ((mem_getLeadsByStage L x s2).1 h2).2)
  · rintro ⟨st, hst, hx⟩
    rcases (mem_getLeadsByStage L x st).1 hx with ⟨hxL, heq⟩
    exact ⟨hxL, heq ▸ hst⟩
  · rintro ⟨hxL, hstage⟩
    exact ⟨x.stage, hstage, (mem_getLeadsByStage L x _).2 ⟨hxL, rfl⟩⟩
  · intro hns st hst hx
    exact hns (((mem_getLeadsByStage L x st).1 hx).2 ▸ hst)

/-- C2 witness: on the concrete list `[amy, zoe, bob]`, Amy's membership in
the "New Leads" bucket excludes her from the "Closed" bucket, and Bob, whose
stage `"Qualified"` is unknown, is in no bucket. -/
theorem grouping_partition_witness :
    ¬ amy ∈ getLeadsByStage [amy, zoe, bob] "Closed" ∧
    ¬ bob ∈ getLeadsByStage [amy, zoe, bob] "New Leads" := by
  constructor
  · exact (grouping_partition [amy, zoe, bob] amy).1 "New Leads" (by decide)
      "Closed" (by decide) (by decide) (by decide)
  · exact (grouping_partition [amy, zoe, bob] bob).2.2 (by decide)
      "New Leads" (by decide)

/-- C3: both text filters only keep elements of `L` (the result is a sublist),
every surviving element contains the query case-insensitively in at least one
searched field (name, company, phone, email, stage for the contact list view;
name, company, phone for the leads screen), and the empty query with no
priority restriction returns `L` unchanged. -/
theorem filter_subset_matches_empty (L : List Lead) (q : String) :
    (ContactListView.filterLeads L q).Sublist L ∧
    (∀ x ∈ ContactListView.filterLeads L q,
      containsCI x.name q = true ∨ optContainsCI x.company q = true ∨
      optContainsCI x.phone q = true ∨ optContainsCI x.email q = true ∨
      containsCI x.stage q = true) ∧
    ContactListView.filterLeads L "" = L ∧
    (LeadsScreen.filteredLeads L q "all").Sublist L ∧
    (∀ x ∈ LeadsScreen.filteredLeads L q "all",
      containsCI x.name q = true ∨ optContainsCI x.company q = true ∨
      optContainsCI x.phone q = true) ∧
    LeadsScreen.filteredLeads L "" "all" = L := by
  refine ⟨List.filter_sublist L, ?_, ?_, List.filter_sublist L, ?_, ?_⟩
  · intro x hx
    have hm : ContactListView.matchesSearch x q = true := (List.mem_filter.1 hx).2
    simp only [ContactListView.matchesSearch, Bool.or_eq_true] at hm
    rcases hm with ((((h | h) | h) | h) | h)
    · exact Or.inl h
    · rcases hc : x.company with _ | c <;> rw [hc] at h
      · exact absurd h (by simp)
      · refine Or.inr (Or.inl ?_)
        simp only [optContainsCI, hc, containsCI]
        simpa using h
    · rcases hp : x.phone with _ | p <;> rw [hp] at h
      · exact absurd h (by simp)
      · refine Or.inr (Or.inr (Or.inl ?_))
        simp only [optContainsCI, hp, containsCI, lowerChars]
        exact includes_map_toLower _ _ (by simpa using h)
    · rcases he : x.email with _ | e <;> rw [he] at h
      · exact absurd h (by simp)
      · refine Or.inr (Or.inr (Or.inr (Or.inl ?_)))
        simp only [optContainsCI, he, containsCI]
        simpa using h
    · exact Or.inr (Or.inr (Or.inr (Or.inr h)))
  · refine List.filter_eq_self.2 fun x _ => ?_
    simp [ContactListView.matchesSearch, lowerChars_empty, includes_nil]
  · intro x hx
    have hm := (List.mem_filter.1 hx).2
    simp only [Bool.and_eq_true, Bool.or_eq_true] at hm
    rcases hm.1 with (h | h) | h
    · exact Or.inl h
    · rcases hc : x.company with _ | c <;> rw [hc] at h
      · exact absurd h (by simp)
      · refine Or.inr (Or.inl ?_)
        simp only [optContainsCI, hc, containsCI]
        simpa using h
    · rcases hp : x.phone with _ | p <;> rw [hp] at h
      · exact absurd h (by simp)
      · refine Or.inr (Or.inr ?_)
        simp only [optContainsCI, hp, containsCI, lowerChars]
        exact includes_map_toLower _ _ (by simpa using h)
  · refine List.filter_eq_self.2 fun x _ => ?_
    simp [lowerChars_empty, includes_nil]

/-- C3 witness: filtering `[amy, zoe]` with `"zo"` keeps Zoe, who matches
case-insensitively on her name (spec §8, scenario 2). -/
theorem filter_subset_matches_empty_witness :
    containsCI zoe.name "zo" = true ∨ optContainsCI zoe.company "zo" = true ∨
    optContainsCI zoe.phone "zo" = true ∨ optContainsCI zoe.email "zo" = true ∨
    containsCI zoe.stage "zo" = true :=
  (filter_subset_matches_empty [amy, zoe] "zo").2.1 zoe (by decide)

/-- C5 (amended): the `SimpleKanbanBoard` per-column aggregate is the
arithmetic sum of `order_value` with absent values as `0`, and is `0` on the
empty column; the `PremiumKanbanBoard` variant instead shows the mock value
`5000` per lead. -/
theorem getTotalValue_spec (L : List Lead) :
    SimpleKanbanBoard.getTotalValue L =
      (L.map fun lead => lead.order_value.getD 0).sum ∧
    SimpleKanbanBoard.getTotalValue ([] : List Lead) = 0 ∧
    PremiumKanbanBoard.getTotalValue L = L.length * 5000 := by
  refine ⟨?_, rfl, rfl⟩
  simpa using foldl_add_getD L 0

/-- Nonpositivity of `localeCompare a b` is exactly `a ≤ b` in the lexicographic string
order. -/
theorem localeCompare_nonpos (a b : String) :
    ContactListView.localeCompare a b ≤ 0 ↔ a ≤ b := by
  unfold ContactListView.localeCompare
  by_cases h1 : a.toList < b.toList
  · rw [if_pos h1]
    exact ⟨fun _ => le_of_lt (String.lt_iff_toList_lt.2 h1), fun _ => by norm_num⟩
  · by_cases h2 : b.toList < a.toList
    · rw [if_neg h1, if_pos h2]
      exact ⟨fun h => absurd h (by norm_num),
        fun h => absurd h (not_le.2 (String.lt_iff_toList_lt.2 h2))⟩
    · rw [if_neg h1, if_neg h2]
      have hab : a ≤ b := not_lt.1 fun h => h2 (String.lt_iff_toList_lt.1 h)
      simp [hab]

/-- The priority comparator's "not greater" relation is the descending order
of the rank table. -/
theorem leadCompare_priority_nonpos (a b : Lead) :
    ContactListView.leadCompare .priority a b ≤ 0 ↔
      ContactListView.priorityOrder b.priority ≤
        ContactListView.priorityOrder a.priority := by
  simp [ContactListView.leadCompare, sub_nonpos]

/-- The sort is a permutation for every key. -/
theorem sortLeads_perm (key : ContactListView.SortKey) (L : List Lead) :
    (ContactListView.sortLeads key L).Perm L := by
  unfold ContactListView.sortLeads ContactListView.jsSort
  exact List.perm_insertionSort _ L

/-- The priority sort is pairwise descending in the rank table. -/
theorem sortLeads_priority_sorted (L : List Lead) :
    List.Pairwise
      (fun a b : Lead =>
        ContactListView.priorityOrder b.priority ≤
          ContactListView.priorityOrder a.priority)
      (ContactListView.sortLeads .priority L) := by
  haveI : IsTotal Lead
      (fun a b => ContactListView.leadCompare .priority a b ≤ 0) := by
    refine ⟨fun a b => ?_⟩
    simp only [leadCompare_priority_nonpos]
    exact le_total _ _
  haveI : IsTrans Lead
      (fun a b => ContactListView.leadCompare .priority a b ≤ 0) := by
    refine ⟨fun a b c hab hbc => ?_⟩
    simp only [leadCompare_priority_nonpos] at hab hbc ⊢
    exact le_trans hbc hab
  have h := List.sorted_insertionSort
    (fun a b : Lead => ContactListView.leadCompare .priority a b ≤ 0) L
  exact List.Pairwise.imp (fun hab => (leadCompare_priority_nonpos _ _).1 hab) h

/-- The stage sort is pairwise nondecreasing in the lexicographic order on the
stage label. -/
theorem sortLeads_stage_sorted (L : List Lead) :
    List.Pairwise (fun a b : Lead => a.stage ≤ b.stage)
      (ContactListView.sortLeads .stage L) := by
  have hiff : ∀ a b : Lead,
      ContactListView.leadCompare .stage a b ≤ 0 ↔ a.stage ≤ b.stage := by
    intro a b
    simp only [ContactListView.leadCompare]
    exact localeCompare_nonpos _ _
  haveI : IsTotal Lead
      (fun a b => ContactListView.leadCompare .stage a b ≤ 0) := by
    refine ⟨fun a b => ?_⟩
    simp only [hiff]
    exact le_total _ _
  haveI : IsTrans Lead
      (fun a b => ContactListView.leadCompare .stage a b ≤ 0) := by
    refine ⟨fun a b c hab hbc => ?_⟩
    simp only [hiff] at hab hbc ⊢
    exact le_trans hab hbc
  have h := List.sorted_insertionSort
    (fun a b : Lead => ContactListView.leadCompare .stage a b ≤ 0) L
  exact List.Pairwise.imp (fun hab => (hiff _ _).1 hab) h

/-- C4: for every key the sorted list is a permutation of `L`; the priority
sort is descending in the fixed rank table `high = 3 > medium = 2 > low = 1`;
the stage sort is lexicographic on the stage label — on the concrete pair
`[amy, zoe]` it puts `"Closed"` before `"New Leads"`, the reverse of their
pipeline positions in `stageIds`. -/
theorem sort_perm_and_sorted (L : List Lead) (key : ContactListView.SortKey) :
    (ContactListView.sortLeads key L).Perm L ∧
    List.Pairwise
      (fun a b : Lead =>
        ContactListView.priorityOrder b.priority ≤
          ContactListView.priorityOrder a.priority)
      (ContactListView.sortLeads .priority L) ∧
    List.Pairwise (fun a b : Lead => a.stage ≤ b.stage)
      (ContactListView.sortLeads .stage L) ∧
    ContactListView.priorityOrder "high" = 3 ∧
    ContactListView.priorityOrder "medium" = 2 ∧
    ContactListView.priorityOrder "low" = 1 ∧
    ContactListView.sortLeads .priority [zoe, amy] = [amy, zoe] ∧
    ContactListView.sortLeads .stage [amy, zoe] = [zoe, amy] ∧
    stageIds.indexOf "New Leads" = 0 ∧ stageIds.indexOf "Closed" = 4 :=
  ⟨sortLeads_perm key L, sortLeads_priority_sorted L, sortLeads_stage_sorted L,
    rfl, rfl, rfl, by decide, by decide, by decide, by decide⟩

/-- C9: every priority outside the rank table gets rank `0`, strictly below
`low`'s rank `1`, and the descending priority sort therefore never places a
ranked lead after an unranked one. -/
theorem unrecognized_priority_sorts_last :
    (∀ p : String, p ≠ "high" → p ≠ "medium" → p ≠ "low" →
      ContactListView.priorityOrder p = 0) ∧
    ContactListView.priorityOrder "low" = 1 ∧
    (∀ L : List Lead,
      List.Pairwise
        (fun a b : Lead =>
          1 ≤ ContactListView.priorityOrder b.priority →
            1 ≤ ContactListView.priorityOrder a.priority)
        (ContactListView.sortLeads .priority L)) := by
  refine ⟨?_, rfl, ?_⟩
  · intro p h1 h2 h3
    simp [ContactListView.priorityOrder, h1, h2, h3]
  · intro L
    refine List.Pairwise.imp ?_ (sortLeads_priority_sorted L)
    intro a b hab hb
    exact le_trans hb hab

/-- C9 witness: the unrecognized priority `"urgent"` gets rank `0`, below
`low`'s rank `1`. -/
theorem unrecognized_priority_sorts_last_witness :
    ContactListView.priorityOrder "urgent" = 0 ∧
    ContactListView.priorityOrder "urgent" <
      ContactListView.priorityOrder "low" := by
  constructor
  · exact unrecognized_priority_sorts_last.1 "urgent" (by decide) (by decide)
      (by decide)
  · rw [unrecognized_priority_sorts_last.1 "urgent" (by decide) (by decide)
      (by decide), unrecognized_priority_sorts_last.2.1]
    norm_num

/-- C5 counterexample: on the one-lead column `[leadWithValue]` with
`order_value = 500`, the `PremiumKanbanBoard` aggregate shows `5000`, not the
arithmetic sum `500` of the `order_value` fields. -/
theorem getTotalValue_premium_counterexample :
    PremiumKanbanBoard.getTotalValue [leadWithValue] = 5000 ∧
    ([leadWithValue].map fun lead => lead.order_value.getD 0).sum = 500 ∧
    PremiumKanbanBoard.getTotalValue [leadWithValue] ≠
      ([leadWithValue].map fun lead => lead.order_value.getD 0).sum := by
  decide

/-- C1: a successful stage update keeps the list length, rewrites exactly the
records whose id is the target id to carry the new stage and the fresh
`last_interaction` timestamp while leaving every one of their other fields
unchanged, and leaves every record with a different id untouched. -/
theorem updateLeadStage_success_frame (token : String) (s : LeadsState)
    (leadId stage now : String) :
    (UseLeads.updateLeadStage (some token) s leadId stage now
        (ApiResponse.success ())).2 = true ∧
    (UseLeads.updateLeadStage (some token) s leadId stage now
        (ApiResponse.success ())).1.leads.length = s.leads.length ∧
    ∀ i : Nat, ∀ lead : Lead, s.leads[i]? = some lead →
      (lead.id = leadId → ∃ r : Lead,
        (UseLeads.updateLeadStage (some token) s leadId stage now
            (ApiResponse.success ())).1.leads[i]? = some r ∧
        r.stage = stage ∧ r.last_interaction = some now ∧
        r.id = lead.id ∧ r.name = lead.name ∧ r.company = lead.company ∧
        r.phone = lead.phone ∧ r.email = lead.email ∧
        r.address = lead.address ∧ r.priority = lead.priority ∧
        r.notes = lead.notes ∧ r.order_value = lead.order_value ∧
        r.currency = lead.currency ∧ r.deal_status = lead.deal_status ∧
        r.user_id = lead.user_id ∧ r.created_at = lead.created_at) ∧
      (lead.id ≠ leadId →
        (UseLeads.updateLeadStage (some token) s leadId stage now
            (ApiResponse.success ())).1.leads[i]? = some lead) := by
  refine ⟨rfl, ?_, ?_⟩
  · simp [UseLeads.updateLeadStage, UseLeads.patchStage]
  · intro i lead hget
    constructor
    · intro hid
      refine ⟨{ lead with stage := stage, last_interaction := some now },
        ?_, by simp⟩
      simp [UseLeads.updateLeadStage, UseLeads.patchStage, hget, hid]
    · intro hid
      simp [UseLeads.updateLeadStage, UseLeads.patchStage, hget, hid]

/-- C1 witness: updating lead `"1"` of `[amy, zoe]` to `"Contacted"` rewrites
Amy's record in place and leaves Zoe's untouched. -/
theorem updateLeadStage_success_frame_witness :
    (∃ r : Lead,
      (UseLeads.updateLeadStage (some "tok") { leads := [amy, zoe], error := none }
          "1" "Contacted" "2024-01-01T00:00:00.000Z"
          (ApiResponse.success ())).1.leads[0]? = some r ∧
      r.stage = "Contacted" ∧
      r.last_interaction = some "2024-01-01T00:00:00.000Z" ∧
      r.id = amy.id ∧ r.name = amy.name ∧ r.company = amy.company ∧
      r.phone = amy.phone ∧ r.email = amy.email ∧ r.address = amy.address ∧
      r.priority = amy.priority ∧ r.notes = amy.notes ∧
      r.order_value = amy.order_value ∧ r.currency = amy.currency ∧
      r.deal_status = amy.deal_status ∧ r.user_id = amy.user_id ∧
      r.created_at = amy.created_at) ∧
    (UseLeads.updateLeadStage (some "tok") { leads := [amy, zoe], error := none }
        "1" "Contacted" "2024-01-01T00:00:00.000Z"
        (ApiResponse.success ())).1.leads[1]? = some zoe := by
  constructor
  · exact ((updateLeadStage_success_frame "tok"
      { leads := [amy, zoe], error := none } "1" "Contacted"
      "2024-01-01T00:00:00.000Z").2.2 0 amy (by decide)).1 (by decide)
  · exact ((updateLeadStage_success_frame "tok"
      { leads := [amy, zoe], error := none } "1" "Contacted"
      "2024-01-01T00:00:00.000Z").2.2 1 zoe (by decide)).2 (by decide)

/-- C6: every failing mutation — a non-2xx response or a network error, for
create, stage update and delete — leaves the in-memory lead list exactly as it
was, returns its failure sentinel (`none` for create, `false` for the others),
and sets an error message string. -/
theorem mutation_failure_frame (token : String) (s : LeadsState) (status : Nat)
    (detail : Option (Option String)) (message : String)
    (leadId stage now : String) :
    ((UseLeads.createLead (some token) s (ApiResponse.httpError status detail)).1.leads
        = s.leads ∧
      (UseLeads.createLead (some token) s
        (ApiResponse.httpError status detail)).1.error.isSome = true ∧
      (UseLeads.createLead (some token) s
        (ApiResponse.httpError status detail)).2 = none) ∧
    ((UseLeads.createLead (some token) s (ApiResponse.networkError message)).1.leads
        = s.leads ∧
      (UseLeads.createLead (some token) s
        (ApiResponse.networkError message)).1.error.isSome = true ∧
      (UseLeads.createLead (some token) s
        (ApiResponse.networkError message)).2 = none) ∧
    ((UseLeads.updateLeadStage (some token) s leadId stage now
        (ApiResponse.httpError status detail)).1.leads = s.leads ∧
      (UseLeads.updateLeadStage (some token) s leadId stage now
        (ApiResponse.httpError status detail)).1.error.isSome = true ∧
      (UseLeads.updateLeadStage (some token) s leadId stage now
        (ApiResponse.httpError status detail)).2 = false) ∧
    ((UseLeads.updateLeadStage (some token) s leadId stage now
        (ApiResponse.networkError message)).1.leads = s.leads ∧
      (UseLeads.updateLeadStage (some token) s leadId stage now
        (ApiResponse.networkError message)).1.error.isSome = true ∧
      (UseLeads.updateLeadStage (some token) s leadId stage now
        (ApiResponse.networkError message)).2 = false) ∧
    ((UseLeads.deleteLead (some token) s leadId
        (ApiResponse.httpError status detail)).1.leads = s.leads ∧
      (UseLeads.deleteLead (some token) s leadId
        (ApiResponse.httpError status detail)).1.error.isSome = true ∧
      (UseLeads.deleteLead (some token) s leadId
        (ApiResponse.httpError status detail)).2 = false) ∧
    ((UseLeads.deleteLead (some token) s leadId
        (ApiResponse.networkError message)).1.leads = s.leads ∧
      (UseLeads.deleteLead (some token) s leadId
        (ApiResponse.networkError message)).1.error.isSome = true ∧
      (UseLeads.deleteLead (some token) s leadId
        (ApiResponse.networkError message)).2 = false) := by
  refine ⟨⟨rfl, rfl, rfl⟩, ⟨rfl, ?_, rfl⟩, ⟨rfl, rfl, rfl⟩, ⟨rfl, rfl, rfl⟩,
    ⟨rfl, rfl, rfl⟩, ⟨rfl, rfl, rfl⟩⟩
  simp [UseLeads.createLead]

/-- C7 (amended): with no bearer token every `useLeads` operation
short-circuits without issuing an HTTP request, returns its falsy sentinel and
leaves the lead list unchanged; `fetchLeads`, `updateLeadStage`, `updateLead`
and `deleteLead` set no error, but `createLead` sets the error string
`'Authentication required'`. -/
theorem no_token_short_circuit (s : LeadsState)
    (respFetch : ApiResponse (List Lead)) (respCreate respUpdate : ApiResponse Lead)
    (respStage respDelete : ApiResponse Unit) (leadId stage now : String) :
    UseLeads.fetchLeads none s respFetch = s ∧
    UseLeads.createLead none s respCreate =
      ({ s with error := some "Authentication required" }, none) ∧
    (UseLeads.createLead none s respCreate).1.leads = s.leads ∧
    UseLeads.updateLeadStage none s leadId stage now respStage = (s, false) ∧
    UseLeads.updateLead none s leadId respUpdate = (s, false) ∧
    UseLeads.deleteLead none s leadId respDelete = (s, false) :=
  ⟨rfl, rfl, rfl, rfl, rfl, rfl⟩

/-- C7 counterexample: calling `createLead` with no token on an error-free
state sets the error string `'Authentication required'`, so the missing-token
short circuit is not free of a user-visible error message. -/
theorem createLead_no_token_sets_error :
    (UseLeads.createLead none { leads := [], error := none }
        (ApiResponse.networkError "")).1.error = some "Authentication required" ∧
    (UseLeads.createLead none { leads := [], error := none }
        (ApiResponse.networkError "")).1.error ≠ none := by
  decide

/-- C8: confirming the deal-outcome prompt emits no API request and leaves
every lead record unchanged — it only raises a local toast notification — and
the move-to-Closed handler that opens the prompt also leaves the lead list
unchanged. -/
theorem dealOutcomeConfirm_no_api (s : BoardState) (dealStatus : String)
    (notes : Option String) (leadId newStage : String) :
    (SimpleKanbanBoard.handleDealOutcomeConfirm s dealStatus notes).1.leads
      = s.leads ∧
    (∀ e ∈ (SimpleKanbanBoard.handleDealOutcomeConfirm s dealStatus notes).2,
      e.isApiRequest = false) ∧
    (SimpleKanbanBoard.handleLeadMovedToClosed s leadId newStage).leads
      = s.leads := by
  refine ⟨?_, ?_, ?_⟩
  · rcases h : s.dealOutcomeModal.lead with _ | lead <;>
      simp [SimpleKanbanBoard.handleDealOutcomeConfirm, h]
  · intro e he
    rcases h : s.dealOutcomeModal.lead with _ | lead <;>
      rw [SimpleKanbanBoard.handleDealOutcomeConfirm] at he <;> rw [h] at he
    · simp at he
    · simp only [List.mem_singleton] at he
      subst he
      rfl
  · rw [SimpleKanbanBoard.handleLeadMovedToClosed]
    split
    · rcases h : s.leads.find? (fun l => l.id == leadId) with _ | lead <;> simp [h]
    · rfl

/-- C8 witness: confirming "won" on a board whose modal holds Amy emits only
the success toast, which is not an API request. -/
theorem dealOutcomeConfirm_no_api_witness :
    BoardEffect.isApiRequest
      (BoardEffect.showToast "success" "✅ Deal Closed - Won! 🎉"
        "Amy marked as won") = false :=
  (dealOutcomeConfirm_no_api
      { leads := [amy],
        dealOutcomeModal := { visible := true, lead := some amy } }
      "won" none "1" "Closed").2.1
    (BoardEffect.showToast "success" "✅ Deal Closed - Won! 🎉"
      "Amy marked as won") (by decide)

/-- C10: `login` returns `true` exactly when both the login request and the
profile fetch succeed; if the login request succeeds but the profile fetch
fails, the stored token and user are cleared, `login` returns `false`, and the
resulting state is not authenticated. -/
theorem login_requires_profile (s : AuthState) (resp : LoginResponse)
    (meResp : MeResponse) :
    ((login s resp meResp).2 = true ↔
      (∃ tk, resp = LoginResponse.ok tk) ∧ ∃ u, meResp = MeResponse.ok u) ∧
    (∀ tk, resp = LoginResponse.ok tk → meResp = MeResponse.failure →
      (login s resp meResp).1.token = none ∧
      (login s resp meResp).1.user = none ∧
      (login s resp meResp).2 = false ∧
      isAuthenticated (login s resp meResp).1 = false) := by
  cases resp <;> cases meResp <;>
    simp [login, fetchUser, logout, isAuthenticated]

/-- C10 witness: a successful login request whose profile fetch fails leaves a
cleared, unauthenticated state. -/
theorem login_requires_profile_witness :
    (login { user := none, token := none } (LoginResponse.ok "tok")
        MeResponse.failure).1.token = none ∧
    isAuthenticated (login { user := none, token := none }
        (LoginResponse.ok "tok") MeResponse.failure).1 = false := by
  have h := (login_requires_profile { user := none, token := none }
    (LoginResponse.ok "tok") MeResponse.failure).2 "tok" rfl rfl
  exact ⟨h.1, h.2.2.2⟩

end CRM
